import Mathlib

/-!
A Lean model of the core modules of the smolagents repository:

* `src/smolagents/memory.py` — step records (`ToolCall`, `ActionStep`,
  `PlanningStep`, `TaskStep`, `SystemPromptStep`) and the `AgentMemory` store;
* `src/smolagents/logger.py` — the parallel step-record definitions and the
  `AgentLogger` with its `write_inner_memory_from_logs` projection;
* `src/smolagents/docker_executor.py` — the `DockerExecutor` protocol:
  final-answer pattern matching, the `run_code` output-collection loop,
  variable push/pull code generation, and `cleanup`.

Python functions are translated into pure Lean functions; the Jupyter kernel
websocket stream is modelled as an explicit list of incoming messages, and
Python exceptions as `Except` values.  Types defined in modules of the
repository that are not part of the studied source tree (`smolagents.models`,
`smolagents.utils`) are modelled from the specification and marked as such.
-/

/-- Modelled from the spec: the role tags of role-tagged content blocks
(system, user, assistant, tool-call, tool-response).  `MessageRole` lives in
`smolagents.models`, which is not under `src/`. -/
inductive MessageRole where
  | SYSTEM
  | USER
  | ASSISTANT
  | TOOL_CALL
  | TOOL_RESPONSE
  deriving DecidableEq, Repr

/-- Modelled from the spec: an ErrorTaxonomy error kind carrying a
human-readable message (`AgentError` lives in `smolagents.utils`, which is not
under `src/`); `str(error)` yields that message. -/
structure AgentError where
  message : String
  deriving DecidableEq, Repr

/-- Modelled from the spec: one raw model response, kept in a separate ordered
log purely for audit and debugging and never replayed into context
(`ChatMessage` lives in `smolagents.models`, which is not under `src/`). -/
structure ChatMessage where
  raw : String
  deriving DecidableEq, Repr

/-- Python exceptions that the modelled code can raise. -/
inductive PyExn where
  | indexError
  | attributeError
  | assertionError (msg : String)
  | unboundLocalError
  | unpicklingError
  | runtimeError (msg : String)
  | incompleteStream
  deriving DecidableEq, Repr

/-- Characters stripped by Python's `str.strip()` with no argument. -/
def isPyWhitespace (c : Char) : Bool :=
  c = ' ' || c = '\t' || c = '\n' || c = '\r' || c = '\x0B' || c = '\x0C'

/-- Python `str.strip()` on a character list. -/
def pyStrip (cs : List Char) : List Char :=
  ((cs.dropWhile isPyWhitespace).reverse.dropWhile isPyWhitespace).reverse

/-- Python `str.strip()`. -/
def pyStripStr (s : String) : String :=
  String.mk (pyStrip s.data)

/-- The `agent_memory` field: a Python `List[Dict[str, str]]`, modelled as a
list of association lists. -/
abbrev RawMemory := List (List (String × String))

/-- A tool call record (`name`, `arguments`, `id`); `memory.py` and
`logger.py` define this dataclass identically.  The `arguments` field is
`Any` in Python and is modelled as a string; `make_json_serializable`
(`smolagents.utils`, not under `src/`) is modelled as the identity on it. -/
structure ToolCall where
  name : String
  arguments : String
  id : String
  deriving DecidableEq, Repr

/-- Python `str(...)` of the dict produced by `ToolCall.dict()`:
`\x7b'id': ..., 'type': 'function', 'function': \x7b'name': ...,
'arguments': ...\x7d\x7d` with string values rendered in single quotes. -/
def ToolCall.dictRepr (tc : ToolCall) : String :=
  "\x7b\x27id\x27: \x27" ++ tc.id ++ "\x27, \x27type\x27: \x27function\x27, " ++
    "\x27function\x27: \x7b\x27name\x27: \x27" ++ tc.name ++
    "\x27, \x27arguments\x27: \x27" ++ tc.arguments ++ "\x27\x7d\x7d"

/-- Python `str([tc.dict() for tc in tool_calls])`. -/
def toolCallListRepr (tcs : List ToolCall) : String :=
  "[" ++ String.intercalate ", " (tcs.map ToolCall.dictRepr) ++ "]"

/-- The error text built by `ActionStep.to_messages` (identical in
`memory.py` and `logger.py`): `"Error:\n" + str(error) + retry advice`. -/
def errorMessageContent (e : AgentError) : String :=
  "Error:\n" ++ e.message ++
    "\nNow let\x27s retry: take care not to repeat previous errors! " ++
    "If you have retried several times, try a completely different approach.\n"

namespace Memory

/-- One content element of a structured message content list in `memory.py`:
either a text block or an image block. -/
inductive ContentBlock where
  | text (t : String)
  | image (img : String)
  deriving DecidableEq, Repr

/-- The `content` field of a `memory.py` `Message`: Python type
`str | list[dict]`; the raw `agent_memory` list can also be passed through. -/
inductive MessageContent where
  | str (s : String)
  | blocks (bs : List ContentBlock)
  | rawMemory (m : RawMemory)
  deriving DecidableEq, Repr

/-- `memory.py`'s `Message` TypedDict: a role and a content value. -/
structure Message where
  role : MessageRole
  content : MessageContent
  deriving DecidableEq, Repr

/-- `memory.py`'s `ActionStep` dataclass; every field defaults to `None`.
Timing fields are Python floats, never inspected by any modelled function. -/
structure ActionStep where
  agent_memory : Option RawMemory := Option.none
  tool_calls : Option (List ToolCall) := Option.none
  start_time : Option Float := Option.none
  end_time : Option Float := Option.none
  step_number : Option Int := Option.none
  error : Option AgentError := Option.none
  duration : Option Float := Option.none
  llm_output : Option String := Option.none
  observations : Option String := Option.none
  observations_images : Option (List String) := Option.none
  action_output : Option String := Option.none

/-- The trailing user-role block of `ActionStep.to_messages` listing observed
images; emitted only when `observations_images` is truthy (non-`None` and
non-empty). -/
def imagesBlock (st : ActionStep) : List Message :=
  match st.observations_images with
  | some (img :: imgs) =>
      [⟨MessageRole.USER,
        MessageContent.blocks
          (ContentBlock.text "Here are the observed images:" ::
            (img :: imgs).map (fun i => ContentBlock.image i))⟩]
  | _ => []

/-- `memory.py` `ActionStep.to_messages(summary_mode, return_memory)`.
Indexing `tool_calls[0]` on an empty list raises `IndexError`. -/
def ActionStep.to_messages (st : ActionStep) (summary_mode : Bool)
    (return_memory : Bool) : Except PyExn (List Message) :=
  let memory : List Message :=
    (match st.agent_memory, return_memory with
     | some am, true => [⟨MessageRole.SYSTEM, MessageContent.rawMemory am⟩]
     | _, _ => [])
    ++ (match st.llm_output, summary_mode with
     | some lo, false =>
        [⟨MessageRole.ASSISTANT,
          MessageContent.blocks [ContentBlock.text (pyStripStr lo)]⟩]
     | _, _ => [])
    ++ (match st.tool_calls with
     | some tcs =>
        [⟨MessageRole.ASSISTANT,
          MessageContent.blocks [ContentBlock.text (toolCallListRepr tcs)]⟩]
     | Option.none => [])
  match st.error with
  | some e =>
    match st.tool_calls with
    | Option.none =>
        Except.ok (memory ++
          [⟨MessageRole.ASSISTANT,
            MessageContent.blocks [ContentBlock.text (errorMessageContent e)]⟩]
          ++ imagesBlock st)
    | some [] => Except.error PyExn.indexError
    | some (tc :: _) =>
        Except.ok (memory ++
          [⟨MessageRole.TOOL_RESPONSE,
            MessageContent.str
              ("Call id: " ++ tc.id ++ "\n" ++ errorMessageContent e)⟩]
          ++ imagesBlock st)
  | Option.none =>
    match st.observations, st.tool_calls with
    | some _, some [] => Except.error PyExn.indexError
    | some obs, some (tc :: _) =>
        Except.ok (memory ++
          [⟨MessageRole.TOOL_RESPONSE,
            MessageContent.str
              ("Call id: " ++ tc.id ++ "\nObservation:\n" ++ obs)⟩]
          ++ imagesBlock st)
    | _, _ => Except.ok (memory ++ imagesBlock st)

/-- `memory.py`'s `PlanningStep` dataclass. -/
structure PlanningStep where
  plan : String
  facts : String
  deriving DecidableEq, Repr

/-- `memory.py` `PlanningStep.to_messages(summary_mode)`. -/
def PlanningStep.to_messages (st : PlanningStep) (summary_mode : Bool) :
    List Message :=
  [⟨MessageRole.ASSISTANT,
    MessageContent.str ("[FACTS LIST]:\n" ++ pyStripStr st.facts)⟩]
  ++ (if summary_mode then []
      else [⟨MessageRole.ASSISTANT,
             MessageContent.str ("[PLAN]:\n" ++ pyStripStr st.plan)⟩])

/-- `memory.py`'s `TaskStep` dataclass. -/
structure TaskStep where
  task : String
  task_images : Option (List String) := Option.none
  deriving DecidableEq, Repr

/-- `memory.py` `TaskStep.to_messages(summary_mode)`: one user-role block
combining the task text and any attached images (`task_images` truthiness:
non-`None` and non-empty). -/
def TaskStep.to_messages (st : TaskStep) (_summary_mode : Bool) :
    List Message :=
  [⟨MessageRole.USER,
    MessageContent.blocks
      (ContentBlock.text ("New task:\n" ++ st.task) ::
        (match st.task_images with
         | some imgs => imgs.map (fun i => ContentBlock.image i)
         | Option.none => []))⟩]

/-- `memory.py`'s `SystemPromptStep` dataclass. -/
structure SystemPromptStep where
  system_prompt : String
  deriving DecidableEq, Repr

/-- `memory.py` `SystemPromptStep.to_messages(summary_mode)`: one system-role
block with the stripped prompt, or nothing in summary mode. -/
def SystemPromptStep.to_messages (st : SystemPromptStep)
    (summary_mode : Bool) : List Message :=
  if summary_mode then []
  else [⟨MessageRole.SYSTEM,
         MessageContent.blocks
           [ContentBlock.text (pyStripStr st.system_prompt)]⟩]

/-- The closed union of `AgentStepLog` subclasses in `memory.py`; the
`AgentMemory.steps` list holds values of any of these variants. -/
inductive StepLog where
  | action (a : ActionStep)
  | planning (p : PlanningStep)
  | task (t : TaskStep)
  | systemPrompt (sp : SystemPromptStep)

/-- `memory.py`'s `AgentMemory`: the ordered step sequence plus the separate
ordered log of raw model chat messages. -/
structure AgentMemory where
  steps : List StepLog
  chat_messages : List ChatMessage

/-- `AgentMemory.__init__`: both sequences start empty. -/
def AgentMemory.init : AgentMemory :=
  ⟨[], []⟩

/-- `AgentMemory.reset`: assigns `self.steps = []` and touches nothing
else. -/
def reset (m : AgentMemory) : AgentMemory :=
  { m with steps := [] }

/-- `AgentMemory.log_step(step, position)`: appends when `position` is
`None`; when a position is given it must be `0` (else `AssertionError`) and
the step replaces slot 0 via `self.steps = [step] + self.steps[1:]`. -/
def log_step (m : AgentMemory) (step : StepLog) (position : Option Nat) :
    Except PyExn AgentMemory :=
  match position with
  | Option.none => Except.ok { m with steps := m.steps ++ [step] }
  | some p =>
      if p = 0 then
        Except.ok { m with steps := step :: m.steps.drop 1 }
      else
        Except.error
          (PyExn.assertionError "Position should only be 0 for system prompt.")

/-- `AgentMemory.log_chat_messages(msg)`: appends to the audit log of raw
model outputs. -/
def log_chat_messages (m : AgentMemory) (msg : ChatMessage) : AgentMemory :=
  { m with chat_messages := m.chat_messages ++ [msg] }

end Memory

namespace Logger

/-- The `content` field of a `logger.py` `Message`: normally a string, but
`ActionStep.to_messages` passes the raw `agent_memory` list through. -/
inductive LContent where
  | str (s : String)
  | rawMemory (m : RawMemory)
  deriving DecidableEq, Repr

/-- `logger.py`'s `Message` dataclass (its `dict()` keeps the same role and
content, so the structure itself models the emitted dict). -/
structure Message where
  role : MessageRole
  content : LContent
  deriving DecidableEq, Repr

/-- `logger.py`'s `ActionStep` dataclass; every field defaults to `None`.
It has a `step` field (not `step_number`) and no `observations_images`.
Timing fields are Python floats, never inspected by any modelled function. -/
structure ActionStep where
  agent_memory : Option RawMemory := Option.none
  tool_calls : Option (List ToolCall) := Option.none
  start_time : Option Float := Option.none
  end_time : Option Float := Option.none
  step : Option Int := Option.none
  error : Option AgentError := Option.none
  duration : Option Float := Option.none
  llm_output : Option String := Option.none
  observations : Option String := Option.none
  action_output : Option String := Option.none

/-- `logger.py` `ActionStep.to_messages(summary_mode, return_memory)`.
Indexing `tool_calls[0]` on an empty list raises `IndexError`. -/
def ActionStep.to_messages (st : ActionStep) (summary_mode : Bool)
    (return_memory : Bool) : Except PyExn (List Message) :=
  let memory : List Message :=
    (match st.agent_memory, return_memory with
     | some am, true => [⟨MessageRole.SYSTEM, LContent.rawMemory am⟩]
     | _, _ => [])
    ++ (match st.llm_output, summary_mode with
     | some lo, false => [⟨MessageRole.ASSISTANT, LContent.str (pyStripStr lo)⟩]
     | _, _ => [])
    ++ (match st.tool_calls with
     | some tcs => [⟨MessageRole.ASSISTANT, LContent.str (toolCallListRepr tcs)⟩]
     | Option.none => [])
  match st.error with
  | some e =>
    match st.tool_calls with
    | Option.none =>
        Except.ok (memory ++
          [⟨MessageRole.ASSISTANT, LContent.str (errorMessageContent e)⟩])
    | some [] => Except.error PyExn.indexError
    | some (tc :: _) =>
        Except.ok (memory ++
          [⟨MessageRole.TOOL_RESPONSE,
            LContent.str ("Call id: " ++ tc.id ++ "\n" ++ errorMessageContent e)⟩])
  | Option.none =>
    match st.observations, st.tool_calls with
    | some _, some [] => Except.error PyExn.indexError
    | some obs, some (tc :: _) =>
        Except.ok (memory ++
          [⟨MessageRole.TOOL_RESPONSE,
            LContent.str ("Call id: " ++ tc.id ++ "\nObservation:\n" ++ obs)⟩])
    | _, _ => Except.ok memory

/-- `logger.py`'s `PlanningStep` dataclass. -/
structure PlanningStep where
  plan : String
  facts : String
  deriving DecidableEq, Repr

/-- `logger.py` `PlanningStep.to_messages(summary_mode)`. -/
def PlanningStep.to_messages (st : PlanningStep) (summary_mode : Bool) :
    List Message :=
  [⟨MessageRole.ASSISTANT, LContent.str ("[FACTS LIST]:\n" ++ pyStripStr st.facts)⟩]
  ++ (if summary_mode then []
      else [⟨MessageRole.ASSISTANT, LContent.str ("[PLAN]:\n" ++ pyStripStr st.plan)⟩])

/-- `logger.py`'s `TaskStep` dataclass (no images field). -/
structure TaskStep where
  task : String
  deriving DecidableEq, Repr

/-- `logger.py` `TaskStep.to_messages(summary_mode)`. -/
def TaskStep.to_messages (st : TaskStep) (_summary_mode : Bool) :
    List Message :=
  [⟨MessageRole.USER, LContent.str ("New task:\n" ++ st.task)⟩]

/-- `logger.py`'s `SystemPromptStep` dataclass. -/
structure SystemPromptStep where
  system_prompt : String
  deriving DecidableEq, Repr

/-- `logger.py` `SystemPromptStep.to_messages(summary_mode)`: unlike
`memory.py`, the prompt is not stripped. -/
def SystemPromptStep.to_messages (st : SystemPromptStep)
    (summary_mode : Bool) : List Message :=
  if summary_mode then []
  else [⟨MessageRole.SYSTEM, LContent.str st.system_prompt⟩]

/-- The closed union of `AgentStepLog` subclasses in `logger.py`; the
`AgentLogger.steps` list holds values of any of these variants. -/
inductive StepLog where
  | action (a : ActionStep)
  | planning (p : PlanningStep)
  | task (t : TaskStep)
  | systemPrompt (sp : SystemPromptStep)

/-- Dynamic dispatch of `step_log.to_messages(...)` over the step variants;
only `ActionStep.to_messages` can raise. -/
def StepLog.to_messages (sl : StepLog) (summary_mode : Bool)
    (return_memory : Bool) : Except PyExn (List Message) :=
  match sl with
  | StepLog.action a => a.to_messages summary_mode return_memory
  | StepLog.planning p => Except.ok (p.to_messages summary_mode)
  | StepLog.task t => Except.ok (t.to_messages summary_mode)
  | StepLog.systemPrompt sp => Except.ok (sp.to_messages summary_mode)

/-- `logger.py`'s `LogLevel` IntEnum. -/
inductive LogLevel where
  | ERROR
  | INFO
  | DEBUG
  deriving DecidableEq, Repr

/-- `logger.py`'s `AgentLogger`: a console log level and the ordered step
sequence (the attached rich console is pure output and carries no state the
projection reads). -/
structure AgentLogger where
  level : LogLevel
  steps : List StepLog

/-- `AgentLogger.write_inner_memory_from_logs(summary_mode, return_memory)`:
concatenates each stored step's `to_messages` output in sequence order. -/
def write_inner_memory_from_logs (lg : AgentLogger) (summary_mode : Bool)
    (return_memory : Bool) : Except PyExn (List Message) :=
  lg.steps.foldlM
    (fun memory step_log => do
      let msgs ← step_log.to_messages summary_mode return_memory
      pure (memory ++ msgs))
    []

end Logger

namespace Docker

/-- A Python value travelling through the executor's serialization channel. -/
inductive PyObj where
  | none_
  | int (n : Int)
  | str (s : String)
  deriving DecidableEq, Repr

/-- Models `base64.b64encode(pickle.dumps(v)).decode()` — an injective,
whitespace-free textual codec for the external pickle+base64 libraries. -/
def pickleB64 : PyObj → String
  | PyObj.none_ => "pkl.none"
  | PyObj.int n => "pkl.int." ++ toString n
  | PyObj.str s => "pkl.str." ++ s

/-- Digit-sequence parser used by the codec decoder. -/
def parseDigitsChars (cs : List Char) : Option Nat :=
  match cs with
  | [] => Option.none
  | _ =>
    cs.foldl
      (fun acc c =>
        match acc with
        | some a => if c.isDigit then some (a * 10 + (c.toNat - 48)) else Option.none
        | Option.none => Option.none)
      (some 0)

/-- Signed-integer parser used by the codec decoder. -/
def parseIntChars : List Char → Option Int
  | '-' :: cs => (parseDigitsChars cs).map (fun n => -(n : Int))
  | cs => (parseDigitsChars cs).map (fun n => (n : Int))

/-- Models `pickle.loads(base64.b64decode(payload))`: the decoder of
`pickleB64`; a payload outside the codec's image raises at load time. -/
def unpickleB64 (cs : List Char) : Option PyObj :=
  if cs = "pkl.none".data then some PyObj.none_
  else if "pkl.int.".data.isPrefixOf cs then (parseIntChars (cs.drop 8)).map PyObj.int
  else if "pkl.str.".data.isPrefixOf cs then some (PyObj.str (String.mk (cs.drop 8)))
  else Option.none

/-- One websocket message received in the `run_code` loop, already reduced to
the cases the loop distinguishes: a `stream` output with its text, an `error`
with its traceback lines, an idle `status`, and anything else (non-idle
status messages and messages whose parent id does not match, both of which
the loop skips). -/
inductive KernelMsg where
  | stream (text : String)
  | error (traceback : List String)
  | statusIdle
  | other
  deriving DecidableEq, Repr

/-- The triple `run_code` returns: `result`, the joined output text, and the
`return_final_answer` flag (Python's `result` starts as `None`, so an unset
result and a pickled `None` coincide, as they do in the source). -/
structure ExecOutcome where
  result : PyObj
  output : String
  is_final_answer : Bool
  deriving DecidableEq, Repr

/-- The regex `^final_answer\((.*)\)$` applied with `re.match` (anchored at
the start; `$` also matches just before a single trailing newline; `.` does
not match a newline; the greedy group runs to the final `)`).  Returns
`group(1)` when the pattern matches. -/
def reMatchFinalAnswer (cs : List Char) : Option (List Char) :=
  let t := if cs.getLast? = some '\n' then cs.dropLast else cs
  if "final_answer(".data.isPrefixOf t ∧ t.getLast? = some ')' ∧
      '\n' ∉ (t.drop 13).dropLast then
    some ((t.drop 13).dropLast)
  else
    Option.none

/-- `self.final_answer_pattern.match(code_action)` on a Python string. -/
def finalAnswerMatch (code_action : String) : Option String :=
  (reMatchFinalAnswer code_action.data).map String.mk

/-- The wrapped code f-string built by `run_code` in final-answer mode,
including its (IPython-dedented) leading indentation. -/
def wrapFinalAnswer (result_expr : String) : String :=
  "\n    import pickle, base64\n    _result = " ++ result_expr ++
    "\n    print(\"RESULT_PICKLE:\" + base64.b64encode(pickle.dumps(_result)).decode())\n    "

/-- The value of `wrapped_code` at the `_send_execute_request` call:
`none` when the local variable was never assigned (final-answer mode with a
non-matching `code_action`), which raises `UnboundLocalError` there. -/
def wrappedCodeOf (code_action : String) (return_final_answer : Bool) :
    Option String :=
  if return_final_answer then (finalAnswerMatch code_action).map wrapFinalAnswer
  else some code_action

/-- The `while True` message-collection loop of `run_code`, processing the
received messages in order with the accumulated `outputs`, current `result`
and `waiting_for_idle` flag.  Exhausting the transcript without reaching the
loop's break models blocking forever on `ws.recv()`. -/
def collectLoop (return_final_answer : Bool) :
    List KernelMsg → List String → PyObj → Bool → Except PyExn ExecOutcome
  | [], _, _, _ => Except.error PyExn.incompleteStream
  | KernelMsg.stream text :: rest, outputs, result, waiting =>
      if return_final_answer ∧ "RESULT_PICKLE:".data.isPrefixOf text.data then
        match unpickleB64 (pyStrip (text.data.drop 14)) with
        | some v => collectLoop return_final_answer rest outputs v true
        | Option.none => Except.error PyExn.unpicklingError
      else
        collectLoop return_final_answer rest (outputs ++ [text]) result waiting
  | KernelMsg.error tb :: _, _, _, _ =>
      Except.error (PyExn.runtimeError (String.intercalate "\n" tb))
  | KernelMsg.statusIdle :: rest, outputs, result, waiting =>
      if ¬ return_final_answer ∨ waiting then
        Except.ok ⟨result, String.join outputs, return_final_answer⟩
      else
        collectLoop return_final_answer rest outputs result waiting
  | KernelMsg.other :: rest, outputs, result, waiting =>
      collectLoop return_final_answer rest outputs result waiting

/-- `DockerExecutor.run_code(code_action, return_final_answer)` against a
given kernel transcript. -/
def run_code (code_action : String) (return_final_answer : Bool)
    (transcript : List KernelMsg) : Except PyExn ExecOutcome :=
  match wrappedCodeOf code_action return_final_answer with
  | some _wrapped_code =>
      collectLoop return_final_answer transcript [] PyObj.none_ false
  | Option.none => Except.error PyExn.unboundLocalError

/-- `DockerExecutor.__call__(code_action)`: runs `run_code` with
`return_final_answer = bool(self.final_answer_pattern.match(code_action))`.
It accepts no state-mapping argument. -/
def call (code_action : String) (transcript : List KernelMsg) :
    Except PyExn ExecOutcome :=
  run_code code_action (finalAnswerMatch code_action).isSome transcript

/-- The code text `__call__` hands to `_send_execute_request` (via
`run_code`), when one is sent at all. -/
def callSubmission (code_action : String) : Option String :=
  wrappedCodeOf code_action (finalAnswerMatch code_action).isSome

/-- The generated snippet of `DockerExecutor.get_variable_from_kernel`. -/
def getVariableCode (var_name : String) : String :=
  "\nimport pickle, base64\nprint(\"RESULT_PICKLE:\" + base64.b64encode(pickle.dumps(" ++
    var_name ++ ")).decode())\n"

/-- `DockerExecutor.get_variable_from_kernel(var_name)`: runs the generated
snippet through `run_code` with `return_final_answer=True`. -/
def get_variable_from_kernel (var_name : String)
    (transcript : List KernelMsg) : Except PyExn ExecOutcome :=
  run_code (getVariableCode var_name) true transcript

/-- Executor attribute/resource state relevant to `cleanup`: which instance
attributes exist and what has been done to the container.  No method of the
class ever assigns a `session` attribute. -/
structure ExecutorState where
  hasKernelId : Bool
  hasContainer : Bool
  hasSession : Bool
  containerStopped : Bool
  containerRemoved : Bool
  deriving DecidableEq, Repr

/-- State of an executor after a fully successful `__init__`: `kernel_id` and
`container` are set, the container is running, and no `session` attribute was
ever assigned. -/
def postInitState : ExecutorState :=
  ⟨true, true, false, false, false⟩

/-- State of an executor whose environment was never created: no `kernel_id`
or `container` attribute exists. -/
def neverCreatedState : ExecutorState :=
  ⟨false, false, false, false, false⟩

/-- The `try` block of `DockerExecutor.cleanup`: reading `self.session` when
no such attribute exists raises `AttributeError` before the container is
touched; otherwise the container (if any) is stopped and removed.  External
client calls themselves are modelled as succeeding. -/
def cleanupBody (s : ExecutorState) : Except PyExn ExecutorState :=
  if s.hasKernelId ∧ ¬ s.hasSession then Except.error PyExn.attributeError
  else if s.hasContainer then
    Except.ok { s with containerStopped := true, containerRemoved := true }
  else Except.ok s

/-- `DockerExecutor.cleanup`: the whole body runs under
`try ... except Exception`, whose handler only logs, so the method always
returns normally. -/
def cleanup (s : ExecutorState) : Except PyExn ExecutorState :=
  match cleanupBody s with
  | Except.ok s2 => Except.ok s2
  | Except.error _ => Except.ok s

/-- `DockerExecutor.__del__`: just calls `self.cleanup()`. -/
def del_ (s : ExecutorState) : Except PyExn ExecutorState :=
  cleanup s

/-- The code string of the repository test `test_execute_image_output`, which
prints an `IMAGE_BASE64:`-prefixed base64 payload and expects a decoded image
back as `result`. -/
def testImageCode : String :=
  "\nimport base64\nfrom PIL import Image\nfrom io import BytesIO\n\n" ++
    "img = Image.new(\"RGB\", (10, 10), (255, 0, 0))\nbuffer = BytesIO()\n" ++
    "img.save(buffer, format=\"PNG\")\n" ++
    "encoded = base64.b64encode(buffer.getvalue()).decode(\"utf-8\")\n" ++
    "print(\"IMAGE_BASE64:\" + encoded)\n"

end Docker

/-- Helper: `cleanup` catches every exception of its body, so it always
returns normally, whatever the executor's attribute state. -/
theorem cleanup_returns_normally (s : Docker.ExecutorState) :
    ∃ s2, Docker.cleanup s = Except.ok s2 := by
  cases h : Docker.cleanupBody s with
  | ok s2 => exact ⟨s2, by unfold Docker.cleanup; rw [h]⟩
  | error e => exact ⟨s, by unfold Docker.cleanup; rw [h]⟩

/-- C1 (counterexample): on the code string `"x = 2; final_answer(x + 3)"`
the anchored pattern `^final_answer\((.*)\)$` does not match, so `__call__`
does not run in final-answer mode and the returned result is `None`, not 5
(transcript: the code runs and the kernel goes idle). -/
theorem c1_prefixed_final_answer_not_matched :
    (Docker.finalAnswerMatch "x = 2; final_answer(x + 3)").isSome = false ∧
    Docker.call "x = 2; final_answer(x + 3)" [Docker.KernelMsg.statusIdle] =
      Except.ok ⟨Docker.PyObj.none_, "", false⟩ :=
  ⟨rfl, rfl⟩

/-- C1 (amended): final-answer mode is entered exactly when the whole code
string has the form `final_answer(<expr>)`: the call on
`"final_answer(2 + 3)"` runs in final-answer mode and returns 5 once the
kernel streams the serialized value 5, while the call on
`"x = 2; final_answer(x + 3)"` runs in normal mode and returns `None`. -/
theorem c1_whole_string_final_answer_mode :
    Docker.finalAnswerMatch "final_answer(2 + 3)" = some "2 + 3" ∧
    Docker.call "final_answer(2 + 3)"
      [Docker.KernelMsg.stream
        ("RESULT_PICKLE:" ++ Docker.pickleB64 (Docker.PyObj.int 5)),
       Docker.KernelMsg.statusIdle] =
      Except.ok ⟨Docker.PyObj.int 5, "", true⟩ ∧
    Docker.call "x = 2; final_answer(x + 3)" [Docker.KernelMsg.statusIdle] =
      Except.ok ⟨Docker.PyObj.none_, "", false⟩ :=
  ⟨rfl, rfl, rfl⟩

/-- C2: the executor's call path takes no state mapping at all — for any
code that is not a final-answer pattern, the code submitted to the kernel is
the user code verbatim, with no state-loader snippet concatenated before
it. -/
theorem c2_call_submits_code_verbatim (code_action : String)
    (h : Docker.finalAnswerMatch code_action = Option.none) :
    Docker.callSubmission code_action = some code_action := by
  simp [Docker.callSubmission, Docker.wrappedCodeOf, h]

/-- Witness for C2 at the concrete code `"print(1)"`. -/
theorem c2_call_submits_code_verbatim_witness :
    Docker.finalAnswerMatch "print(1)" = Option.none ∧
    Docker.callSubmission "print(1)" = some "print(1)" :=
  ⟨by decide, c2_call_submits_code_verbatim "print(1)" (by decide)⟩

/-- C3: running the repository test's image-printing code whose captured
stream contains the line `IMAGE_BASE64:QUJD` returns `result = None` with the
marker line left verbatim in the log — the executor has no image-marker
decoding path outside final-answer mode. -/
theorem c3_image_marker_not_decoded :
    Docker.call Docker.testImageCode
      [Docker.KernelMsg.stream "IMAGE_BASE64:QUJD", Docker.KernelMsg.statusIdle] =
      Except.ok ⟨Docker.PyObj.none_, "IMAGE_BASE64:QUJD", false⟩ :=
  rfl

/-- C4: the memory-to-messages projection is a pure function of the stored
step sequence and the two flags: two loggers with the same step sequence
(whatever their other state, such as the log level) produce identical
message lists for the same flags. -/
theorem c4_projection_pure_function_of_steps
    (lg1 lg2 : Logger.AgentLogger) (summary_mode return_memory : Bool)
    (h : lg1.steps = lg2.steps) :
    Logger.write_inner_memory_from_logs lg1 summary_mode return_memory =
      Logger.write_inner_memory_from_logs lg2 summary_mode return_memory := by
  unfold Logger.write_inner_memory_from_logs
  rw [h]

/-- Witness for C4: two loggers with different levels but the same steps. -/
theorem c4_projection_pure_function_of_steps_witness :
    Logger.write_inner_memory_from_logs
        ⟨Logger.LogLevel.ERROR, [Logger.StepLog.task ⟨"t"⟩]⟩ false false =
      Logger.write_inner_memory_from_logs
        ⟨Logger.LogLevel.DEBUG, [Logger.StepLog.task ⟨"t"⟩]⟩ false false :=
  c4_projection_pure_function_of_steps _ _ false false rfl

/-- C5 (counterexample): on the empty memory store, logging a new
`SystemPromptStep` at position 0 grows the step sequence from length 0 to
length 1, so the total length does change. -/
theorem c5_empty_store_length_changes :
    ∃ m2, Memory.log_step Memory.AgentMemory.init
        (Memory.StepLog.systemPrompt ⟨"p"⟩) (some 0) = Except.ok m2 ∧
      m2.steps.length ≠ Memory.AgentMemory.init.steps.length := by
  refine ⟨⟨[Memory.StepLog.systemPrompt ⟨"p"⟩], []⟩, rfl, ?_⟩
  decide

/-- C5 (amended): on every NON-EMPTY memory store, logging a step at
position 0 replaces slot 0 rather than inserting: the records after slot 0
are unchanged and in the same order, slot 0 holds the new step, the total
length does not change, and the chat-message log is untouched. -/
theorem c5_replace_slot0_nonempty_preserves
    (m : Memory.AgentMemory) (step : Memory.StepLog) (h : m.steps ≠ []) :
    ∃ m2, Memory.log_step m step (some 0) = Except.ok m2 ∧
      m2.steps.length = m.steps.length ∧
      m2.steps.drop 1 = m.steps.drop 1 ∧
      m2.steps.head? = some step ∧
      m2.chat_messages = m.chat_messages := by
  refine ⟨{ m with steps := step :: m.steps.drop 1 }, rfl, ?_, ?_, rfl, rfl⟩
  · obtain ⟨x, xs, hx⟩ : ∃ x xs, m.steps = x :: xs := by
      cases hm : m.steps with
      | nil => exact absurd hm h
      | cons x xs => exact ⟨x, xs, rfl⟩
    simp [hx]
  · simp

/-- Witness for C5 (amended) at a one-step store with a non-empty chat
log. -/
theorem c5_replace_slot0_nonempty_preserves_witness :
    ∃ m2, Memory.log_step
        ⟨[Memory.StepLog.task ⟨"t0", Option.none⟩], [⟨"raw"⟩]⟩
        (Memory.StepLog.systemPrompt ⟨"p2"⟩) (some 0) = Except.ok m2 ∧
      m2.steps.length =
        (⟨[Memory.StepLog.task ⟨"t0", Option.none⟩], [⟨"raw"⟩]⟩ :
          Memory.AgentMemory).steps.length ∧
      m2.steps.drop 1 =
        (⟨[Memory.StepLog.task ⟨"t0", Option.none⟩], [⟨"raw"⟩]⟩ :
          Memory.AgentMemory).steps.drop 1 ∧
      m2.steps.head? = some (Memory.StepLog.systemPrompt ⟨"p2"⟩) ∧
      m2.chat_messages =
        (⟨[Memory.StepLog.task ⟨"t0", Option.none⟩], [⟨"raw"⟩]⟩ :
          Memory.AgentMemory).chat_messages :=
  c5_replace_slot0_nonempty_preserves _ _ (by simp)

/-- C6: an `ActionStep` with a non-empty tool-call list and an error
projects to a message list containing an error-report message with
tool-response role whose content carries the id of the step's (first) tool
call. -/
theorem c6_error_with_tool_call_is_tool_response
    (st : Memory.ActionStep) (tc : ToolCall) (rest : List ToolCall)
    (e : AgentError) (summary_mode return_memory : Bool)
    (htc : st.tool_calls = some (tc :: rest)) (he : st.error = some e) :
    ∃ msgs, st.to_messages summary_mode return_memory = Except.ok msgs ∧
      (⟨MessageRole.TOOL_RESPONSE,
        Memory.MessageContent.str
          ("Call id: " ++ tc.id ++ "\n" ++ errorMessageContent e)⟩ :
        Memory.Message) ∈ msgs := by
  unfold Memory.ActionStep.to_messages
  rw [he, htc]
  exact ⟨_, rfl, by simp⟩

/-- Witness for C6 at a concrete step with one tool call and one error. -/
theorem c6_error_with_tool_call_is_tool_response_witness :
    ∃ msgs, Memory.ActionStep.to_messages
        { tool_calls := some [⟨"search", "q", "call_1"⟩],
          error := some ⟨"boom"⟩ } false false = Except.ok msgs ∧
      (⟨MessageRole.TOOL_RESPONSE,
        Memory.MessageContent.str
          ("Call id: " ++ "call_1" ++ "\n" ++ errorMessageContent ⟨"boom"⟩)⟩ :
        Memory.Message) ∈ msgs :=
  c6_error_with_tool_call_is_tool_response
    { tool_calls := some [⟨"search", "q", "call_1"⟩], error := some ⟨"boom"⟩ }
    ⟨"search", "q", "call_1"⟩ [] ⟨"boom"⟩ false false rfl rfl

/-- C7: on the state reached by a successful `__init__` (kernel and
container created, no `session` attribute ever assigned), `cleanup` hits an
`AttributeError` at `self.session`, swallows it, and returns with the
container neither stopped nor removed. -/
theorem c7_cleanup_skips_container_teardown :
    Docker.cleanup Docker.postInitState = Except.ok Docker.postInitState ∧
    Docker.postInitState.containerStopped = false ∧
    Docker.postInitState.containerRemoved = false :=
  ⟨rfl, rfl, rfl⟩

/-- C8: `cleanup` never raises — calling it twice in a row returns normally
from any executor state, `__del__` performs exactly `cleanup`, and cleanup on
a never-created environment returns normally without touching anything. -/
theorem c8_cleanup_idempotent_never_raises (s : Docker.ExecutorState) :
    (∃ s1 s2, Docker.cleanup s = Except.ok s1 ∧
       Docker.cleanup s1 = Except.ok s2) ∧
    Docker.del_ s = Docker.cleanup s ∧
    Docker.cleanup Docker.neverCreatedState =
      Except.ok Docker.neverCreatedState := by
  refine ⟨?_, rfl, rfl⟩
  obtain ⟨s1, h1⟩ := cleanup_returns_normally s
  obtain ⟨s2, h2⟩ := cleanup_returns_normally s1
  exact ⟨s1, s2, h1, h2⟩

/-- Witness for C8 at the post-`__init__` executor state. -/
theorem c8_cleanup_idempotent_never_raises_witness :
    (∃ s1 s2, Docker.cleanup Docker.postInitState = Except.ok s1 ∧
       Docker.cleanup s1 = Except.ok s2) ∧
    Docker.del_ Docker.postInitState = Docker.cleanup Docker.postInitState ∧
    Docker.cleanup Docker.neverCreatedState =
      Except.ok Docker.neverCreatedState :=
  c8_cleanup_idempotent_never_raises Docker.postInitState

/-- C9: `get_variable_from_kernel` always fails with `UnboundLocalError`,
whatever the kernel transcript (hence also for a defined name): its generated
snippet never matches the final-answer pattern, so in final-answer mode
`wrapped_code` is never assigned. -/
theorem c9_get_variable_always_unbound_local
    (transcript : List Docker.KernelMsg) :
    Docker.get_variable_from_kernel "x" transcript =
      Except.error PyExn.unboundLocalError := by
  have h : Docker.wrappedCodeOf (Docker.getVariableCode "x") true =
      Option.none := by decide
  unfold Docker.get_variable_from_kernel Docker.run_code
  rw [h]

/-- Witness for C9 at the empty transcript. -/
theorem c9_get_variable_always_unbound_local_witness :
    Docker.get_variable_from_kernel "x" [] =
      Except.error PyExn.unboundLocalError :=
  c9_get_variable_always_unbound_local []

/-- C10: `reset` clears exactly the step sequence and leaves the separate
audit log of raw model chat messages unchanged. -/
theorem c10_reset_preserves_chat_messages (m : Memory.AgentMemory) :
    (Memory.reset m).steps = [] ∧
    (Memory.reset m).chat_messages = m.chat_messages :=
  ⟨rfl, rfl⟩

/-- Witness for C10 on a store with one logged chat message. -/
theorem c10_reset_preserves_chat_messages_witness :
    (Memory.reset (Memory.log_chat_messages Memory.AgentMemory.init ⟨"raw"⟩)).steps = [] ∧
    (Memory.reset (Memory.log_chat_messages Memory.AgentMemory.init ⟨"raw"⟩)).chat_messages =
      (Memory.log_chat_messages Memory.AgentMemory.init ⟨"raw"⟩).chat_messages :=
  c10_reset_preserves_chat_messages _
